import Mathlib

/-!
Verification of the multi-tenant configuration-resolution and request-dispatch
core of prometheus-mcp-server (src/prometheus_mcp_server/server.py), as a
shallow embedding in Lean 4.

Modelling conventions, used throughout:
  * Python dicts are association lists in insertion order; dict assignment
    replaces the value of an existing key in place and appends a fresh key at
    the end, and `dict.update` folds assignment over the new pairs.
  * JSON values produced by `json.loads` are the inductive type `JValue`;
    JSON numbers are modelled as integers (non-integral numbers play no role
    in any modelled property).
  * Python truthiness is the `truthy` family of functions; `None` is the
    `Option.none` of an optional value.
  * `time.time()` instants are rationals (floats are rationals), so the TTL
    comparison is exact.
  * Fallible Python code returns `Except`; an uncaught exception is the
    `.error` branch, carrying a constructor per relevant exception class.
-/

namespace PromMCP

/-- A single ASCII apostrophe, used to reproduce the quote characters of the
error message strings in server.py. -/
def sq : String := String.singleton (Char.ofNat 39)

/-- JSON values as returned by json.loads. Numbers are modelled as integers. -/
inductive JValue where
  | null
  | bool (b : Bool)
  | num (n : Int)
  | str (s : String)
  | arr (xs : List JValue)
  | obj (fields : List (String × JValue))

/-- Python truthiness of a JSON value (`if value:`). -/
def JValue.truthy : JValue → Bool
  | .null => false
  | .bool b => b
  | .num n => n != 0
  | .str s => s != ""
  | .arr xs => !xs.isEmpty
  | .obj fs => !fs.isEmpty

/-- Python truthiness of an optional value (None is falsy). -/
def pyTruthyOpt : Option JValue → Bool
  | none => false
  | some v => v.truthy

/-- str(v) for the scalar values the code interpolates into messages and
headers. Containers are given a nominal rendering: no modelled claim inspects
the str() of a container (in the source they only reach str() through
pathological configurations outside every claim). -/
def JValue.pyStr : JValue → String
  | .null => "None"
  | .bool true => "True"
  | .bool false => "False"
  | .num n => toString n
  | .str s => s
  | .arr _ => "[...]"
  | .obj _ => "{...}"

/-- Python dict-key identity for the JSON scalars that can serve as a tenant
name: dict keys identify True with 1 and False with 0, and a string key never
equals a non-string. Containers are unhashable (`none`). The encoding is
injective on the hashable scalars modulo Python key equality. -/
def JValue.dictKey : JValue → Option String
  | .null => some "none"
  | .bool b => some ("int:" ++ (if b then "1" else "0"))
  | .num n => some ("int:" ++ toString n)
  | .str s => some ("str:" ++ s)
  | .arr _ => none
  | .obj _ => none

/-- Python `==` between two dict keys, via the key encoding. Only ever applied
to hashable values in the model (the loader rejects unhashable names first). -/
def pyKeyEq (a b : JValue) : Bool :=
  match a.dictKey, b.dictKey with
  | some x, some y => x == y
  | _, _ => false

/-- Lookup of the last binding of a key in a JSON object field list: duplicate
keys in a JSON text resolve to the last occurrence under json.loads. -/
def lookupLast (fields : List (String × JValue)) (k : String) : Option JValue :=
  match fields with
  | [] => none
  | p :: rest => (lookupLast rest k).orElse (fun _ => if p.1 = k then some p.2 else none)

/-- Python `entry.get(k)` on a decoded JSON object: absent keys and JSON null
both surface as Python None. -/
def pyGet (fields : List (String × JValue)) (k : String) : Option JValue :=
  match lookupLast fields k with
  | some .null => none
  | some v => some v
  | none => none

/-- Python dict lookup `d[k] if k in d else None` for a model dict (first and
only occurrence of a key, dicts keep keys unique). -/
def dictGet {α : Type} (d : List (String × α)) (k : String) : Option α :=
  match d with
  | [] => none
  | p :: rest => if p.1 = k then some p.2 else dictGet rest k

/-- Python dict assignment `d[k] = v`: replace in place if the key exists,
append otherwise. -/
def dictSet {α : Type} (d : List (String × α)) (k : String) (v : α) : List (String × α) :=
  match d with
  | [] => [(k, v)]
  | p :: rest => if p.1 = k then (k, v) :: rest else p :: dictSet rest k v

/-- Python `d.update(new)`: assignment folded over the new pairs in order. -/
def dictUpdate {α : Type} (d : List (String × α)) (new : List (String × α)) : List (String × α) :=
  new.foldl (fun acc p => dictSet acc p.1 p.2) d

/-- The value a key ends up with after `dictUpdate` from an empty dict: the
last binding in the pair list wins. -/
def dictGetLast {α : Type} (ns : List (String × α)) (k : String) : Option α :=
  match ns with
  | [] => none
  | p :: rest => (dictGetLast rest k).orElse (fun _ => if p.1 = k then some p.2 else none)

/-- Python `", ".join(names)`. -/
def joinComma : List String → String
  | [] => ""
  | [s] => s
  | s :: rest => s ++ ", " ++ joinComma rest

/-- TenantConfig (server.py:159-168). `name` and `url` keep the raw JSON
values the loader read; credential and header fields keep the raw optional
JSON values (`None` for absent or JSON-null fields, as `entry.get` returns). -/
structure TenantConfig where
  name : JValue
  url : JValue
  url_ssl_verify : Bool
  username : Option JValue := none
  password : Option JValue := none
  token : Option JValue := none
  org_id : Option JValue := none
  custom_headers : Option (List (String × JValue)) := none

/-- The fields of the module-level PrometheusConfig (server.py:136-157) that
the resolution/dispatch core reads. The tenant registry and default tenant
live in `TenantState` below, since they are the one lazily initialized part. -/
structure PrometheusConfig where
  url : String
  url_ssl_verify : Bool := true
  username : Option JValue := none
  password : Option JValue := none
  token : Option JValue := none
  org_id : Option JValue := none
  custom_headers : Option (List (String × JValue)) := none
  request_timeout : Int := 30

/-- The mutable registry slice of the module config: `config.tenants` is None
before lazy initialization and a dict afterwards (server.py:156-157). -/
structure TenantState where
  tenants : Option (List (JValue × TenantConfig))
  default_tenant : Option String

/-- A tenant registry after initialization: insertion-ordered dict from the
raw tenant name value to its TenantConfig. -/
abbrev Registry := List (JValue × TenantConfig)

/-- The authentication artifact produced by get_prometheus_auth: a header
dict for bearer tokens, a requests.auth.HTTPBasicAuth pair, or None. -/
inductive AuthArtifact where
  | headerAuth (headers : List (String × JValue))
  | basicAuth (username password : JValue)
  | noAuth

/-- The credential precedence of get_prometheus_auth (server.py:304-308):
truthy token wins, else a truthy username/password pair, else no auth. -/
def composeAuth (username password token : Option JValue) : AuthArtifact :=
  if pyTruthyOpt token then
    .headerAuth [("Authorization", .str ("Bearer " ++ (token.getD .null).pyStr))]
  else if pyTruthyOpt username && pyTruthyOpt password then
    .basicAuth (username.getD .null) (password.getD .null)
  else
    .noAuth

/-- get_prometheus_auth (server.py:293-308): falls back to the global
configuration credentials exactly when all three arguments are None, then
applies the token/basic/none precedence. -/
def get_prometheus_auth (username password token : Option JValue)
    (cfg : PrometheusConfig) : AuthArtifact :=
  if username.isNone && password.isNone && token.isNone then
    composeAuth cfg.username cfg.password cfg.token
  else
    composeAuth username password token

/-- Model of _parse_bool (server.py:189-198): None defaults, bools pass through,
numbers are their zero test, strings are a case-insensitive member test. -/
def _parse_bool (v : Option JValue) (dflt : Bool) : Bool :=
  match v with
  | none => dflt
  | some .null => dflt
  | some (.bool b) => b
  | some (.num n) => n != 0
  | some (.str s) => s.toLower == "true" || s.toLower == "1" || s.toLower == "yes"
  | some (.arr _) => dflt
  | some (.obj _) => dflt

/-- The exceptions _load_tenants can raise: the ValueErrors it raises itself
(the spec calls them ConfigError), and the TypeError CPython raises when an
unhashable (container) tenant name is used as a dict key. -/
inductive LoadError where
  | configError (msg : String)
  | typeError (msg : String)

/-- The raw PROMETHEUS_TENANTS text, abstracted by the outcome of json.loads:
falsy (unset or empty), undecodable, or decoding to a JSON value. -/
inductive RawTenants where
  | unset
  | invalid (msg : String)
  | value (v : JValue)

/-- Python truthiness of an optional header dict (None and the empty dict are
falsy). -/
def pyTruthyHdrs : Option (List (String × JValue)) → Bool
  | none => false
  | some l => !l.isEmpty

/-- The TenantConfig one loop iteration of _load_tenants builds
(server.py:229-248), given the entry fields, its truthy name value, and the
already-validated tenant custom-headers object (None when absent): the
effective custom headers overlay the tenant headers on the global ones,
absent both they stay None. -/
def mkTenant (fields : List (String × JValue)) (baseSsl : Bool)
    (baseHeaders : Option (List (String × JValue)))
    (nameV : JValue) (tenantHeaders : Option (List (String × JValue))) : TenantConfig :=
  { name := nameV
    url := (pyGet fields "url").getD .null
    url_ssl_verify := _parse_bool (pyGet fields "url_ssl_verify") baseSsl
    username := pyGet fields "username"
    password := pyGet fields "password"
    token := pyGet fields "token"
    org_id := pyGet fields "org_id"
    custom_headers :=
      if pyTruthyHdrs baseHeaders || pyTruthyHdrs tenantHeaders then
        some (if pyTruthyHdrs tenantHeaders then
                dictUpdate (baseHeaders.getD []) (tenantHeaders.getD [])
              else baseHeaders.getD [])
      else none }

/-- The per-entry loop of _load_tenants (server.py:218-248), with the loop
index carried for the error messages and the dict built so far as `acc`.
Checks run in source order: object shape, truthy name and url, duplicate name
(where CPython would raise TypeError first for an unhashable name),
custom_headers shape; then the tenant is appended. -/
def loadEntries (baseSsl : Bool) (baseHeaders : Option (List (String × JValue))) :
    Nat → Registry → List JValue → Except LoadError Registry
  | _, acc, [] => .ok acc
  | idx, acc, entry :: rest =>
    match entry with
    | .obj fields =>
      if !(pyTruthyOpt (pyGet fields "name") && pyTruthyOpt (pyGet fields "url")) then
        .error (.configError ("PROMETHEUS_TENANTS[" ++ toString idx ++ "] requires " ++
          sq ++ "name" ++ sq ++ " and " ++ sq ++ "url" ++ sq))
      else
        match ((pyGet fields "name").getD .null).dictKey with
        | none => .error (.typeError "unhashable type")
        | some _ =>
          if acc.any (fun p => pyKeyEq p.1 ((pyGet fields "name").getD .null)) then
            .error (.configError ("Duplicate tenant name " ++ sq ++
              ((pyGet fields "name").getD .null).pyStr ++ sq ++ " in PROMETHEUS_TENANTS"))
          else
            match pyGet fields "custom_headers" with
            | some (.arr _) | some (.bool _) | some (.num _) | some (.str _) =>
              .error (.configError ("PROMETHEUS_TENANTS[" ++ toString idx ++
                "].custom_headers must be an object"))
            | tch =>
              loadEntries baseSsl baseHeaders (idx + 1)
                (acc ++ [((pyGet fields "name").getD .null,
                  mkTenant fields baseSsl baseHeaders ((pyGet fields "name").getD .null)
                    (match tch with
                     | some (.obj hs) => some hs
                     | _ => none))]) rest
    | _ =>
      .error (.configError ("PROMETHEUS_TENANTS[" ++ toString idx ++ "] must be an object"))

/-- Model of _load_tenants (server.py:200-257): falsy raw text yields the empty
registry; a decode failure, a non-array top level, or a bad entry raises; a
truthy default-tenant override must name a loaded tenant, otherwise the
default is the first declared tenant (None when there are none). For a
registry whose first name is not a string, the stored default is modelled
through str(); every claim lives in the string-name case. -/
def _load_tenants (raw : RawTenants) (default_tenant_env : Option String)
    (base_url_ssl_verify : Bool) (base_custom_headers : Option (List (String × JValue))) :
    Except LoadError (Registry × Option String) :=
  match raw with
  | .unset => .ok ([], none)
  | .invalid msg => .error (.configError ("Invalid PROMETHEUS_TENANTS JSON: " ++ msg))
  | .value (.arr entries) =>
    match loadEntries base_url_ssl_verify base_custom_headers 0 [] entries with
    | .error e => .error e
    | .ok tenants =>
      match default_tenant_env with
      | some d =>
        if d != "" then
          if tenants.any (fun p => pyKeyEq p.1 (.str d)) then
            .ok (tenants, some d)
          else
            .error (.configError ("PROMETHEUS_DEFAULT_TENANT " ++ sq ++ d ++ sq ++
              " not found in PROMETHEUS_TENANTS"))
        else
          .ok (tenants, (tenants.head?).map (fun p => p.1.pyStr))
      | none => .ok (tenants, (tenants.head?).map (fun p => p.1.pyStr))
  | .value _ =>
    .error (.configError "PROMETHEUS_TENANTS must be a JSON array of tenant objects")

/-- initialize_tenants (server.py:259-277) as a state transformer: a no-op
when `config.tenants` is already a dict, otherwise it loads and stores the
registry and default. A raised LoadError propagates with the stored state
untouched, since both assignments come after the _load_tenants call. -/
def init_tenants (raw : RawTenants) (default_tenant_env : Option String)
    (base_ssl : Bool) (base_headers : Option (List (String × JValue)))
    (st : TenantState) : TenantState × Option LoadError :=
  match st.tenants with
  | some _ => (st, none)
  | none =>
    match _load_tenants raw default_tenant_env base_ssl base_headers with
    | .error e => (st, some e)
    | .ok (t, d) => ({ tenants := some t, default_tenant := d }, none)

/-- Python truthiness of an optional string. -/
def pyTruthyStr : Option String → Bool
  | none => false
  | some s => s != ""

/-- Python `a or b` on optional strings. -/
def pyOrStr (a b : Option String) : Option String :=
  if pyTruthyStr a then a else b

/-- The ValueErrors _resolve_tenant raises, tagged by kind; both are plain
ValueError in Python, distinguishable by message. -/
inductive ResolveError where
  | noTenantSpecified (msg : String)
  | unknownTenant (msg : String)

/-- The message carried by a ResolveError. -/
def ResolveError.msg : ResolveError → String
  | .noTenantSpecified m => m
  | .unknownTenant m => m

/-- Model of _resolve_tenant (server.py:282-291), on an initialized registry (the lazy
initialize_tenants() preamble is `init_tenants` above). An empty registry
resolves every selector to the global backend (None). Otherwise the selector
defaults to the registry default; a falsy result or an unknown name raises,
the unknown-tenant message joining every registered key (`", ".join` over the
keys, which are the raw tenant name values). -/
def _resolve_tenant (tenant : Option String) (tenants : Registry)
    (default_tenant : Option String) : Except ResolveError (Option TenantConfig) :=
  if tenants.isEmpty then .ok none
  else
    let selected := pyOrStr tenant default_tenant
    if !pyTruthyStr selected then
      .error (.noTenantSpecified "No tenant specified and PROMETHEUS_DEFAULT_TENANT is not set")
    else
      let s := selected.getD ""
      match tenants.find? (fun p => pyKeyEq p.1 (.str s)) with
      | some p => .ok (some p.2)
      | none =>
        .error (.unknownTenant ("Unknown tenant " ++ sq ++ s ++ sq ++
          ". Available tenants: " ++ joinComma (tenants.map (fun p => p.1.pyStr))))

/-- The credential selection of make_prometheus_request (server.py:327-330):
each field comes wholesale from the resolved tenant when one exists, else
from the global config, and the triple feeds get_prometheus_auth. -/
def requestAuth (tc : Option TenantConfig) (cfg : PrometheusConfig) : AuthArtifact :=
  get_prometheus_auth
    (match tc with | some t => t.username | none => cfg.username)
    (match tc with | some t => t.password | none => cfg.password)
    (match tc with | some t => t.token | none => cfg.token)
    cfg

/-- The org id used for the X-Scope-OrgID header (server.py:338): the tenant
value when a tenant resolved and its org_id is not None, else the global one. -/
def requestOrgId (tc : Option TenantConfig) (cfg : PrometheusConfig) : Option JValue :=
  match tc with
  | some t => if t.org_id.isSome then t.org_id else cfg.org_id
  | none => cfg.org_id

/-- The custom headers used for the request (server.py:342): the resolved
tenant merged headers when a tenant resolved, else the global ones. -/
def requestCustomHeaders (tc : Option TenantConfig) (cfg : PrometheusConfig) :
    Option (List (String × JValue)) :=
  match tc with
  | some t => t.custom_headers
  | none => cfg.custom_headers

/-- Header dict after the auth step (server.py:331-335): start from an empty
dict and merge in a header-based auth artifact. -/
def headersAfterAuth (tc : Option TenantConfig) (cfg : PrometheusConfig) :
    List (String × JValue) :=
  match requestAuth tc cfg with
  | .headerAuth hs => dictUpdate [] hs
  | _ => []

/-- The auth value handed to the transport (server.py:333-335): the basic
pair when the artifact is basic auth, cleared to None when the artifact went
into the headers. -/
def transportAuthOf (tc : Option TenantConfig) (cfg : PrometheusConfig) :
    Option (JValue × JValue) :=
  match requestAuth tc cfg with
  | .basicAuth u p => some (u, p)
  | _ => none

/-- Header dict after the scope-id step (server.py:337-340): assign the
X-Scope-OrgID header when the org id is truthy. -/
def headersAfterScope (tc : Option TenantConfig) (cfg : PrometheusConfig) :
    List (String × JValue) :=
  if pyTruthyOpt (requestOrgId tc cfg) then
    dictSet (headersAfterAuth tc cfg) "X-Scope-OrgID" ((requestOrgId tc cfg).getD .null)
  else headersAfterAuth tc cfg

/-- Header dict after the custom-header step (server.py:342-344): merge in
truthy custom headers. -/
def headersAfterCustom (tc : Option TenantConfig) (cfg : PrometheusConfig) :
    List (String × JValue) :=
  match requestCustomHeaders tc cfg with
  | some ch => if !ch.isEmpty then dictUpdate (headersAfterScope tc cfg) ch
               else headersAfterScope tc cfg
  | none => headersAfterScope tc cfg

/-- The header-building phase of make_prometheus_request (server.py:331-344):
the transport auth pair (if any) and the final header dict, merged in source
order auth step, scope-id step, custom-header step. -/
def requestAuthAndHeaders (tc : Option TenantConfig) (cfg : PrometheusConfig) :
    Option (JValue × JValue) × List (String × JValue) :=
  (transportAuthOf tc cfg, headersAfterCustom tc cfg)

/-- Strip trailing slashes (Python `url.rstrip("/")`). -/
def rstripSlash (s : String) : String :=
  String.mk (s.data.reverse.dropWhile (fun c => c = Char.ofNat 47)).reverse

/-- The target URL of a request (server.py:326). -/
def requestUrl (base : String) (endpoint : String) : String :=
  rstripSlash base ++ "/api/v1/" ++ endpoint

/-- The Python exceptions live in make_prometheus_request, tagged by the
classes its except clauses test. `requestsJSONDecodeError` models
requests.exceptions.JSONDecodeError, which subclasses BOTH
requests.exceptions.RequestException and json.JSONDecodeError — the class
response.json() raises on an undecodable body, asserted to propagate
unmodified by the repository test test_make_prometheus_request_json_error.
`jsonDecodeError` is a plain json.JSONDecodeError that is not a
RequestException (the class the sibling test
test_make_prometheus_request_pure_json_decode_error simulates). -/
inductive PyError where
  | requestException (cls msg : String)
  | requestsJSONDecodeError (msg : String)
  | jsonDecodeError (msg : String)
  | valueError (msg : String)
  | otherError (msg : String)

/-- Membership in requests.exceptions.RequestException. -/
def PyError.isRequestException : PyError → Bool
  | .requestException _ _ => true
  | .requestsJSONDecodeError _ => true
  | _ => false

/-- Membership in json.JSONDecodeError. -/
def PyError.isJSONDecodeError : PyError → Bool
  | .requestsJSONDecodeError _ => true
  | .jsonDecodeError _ => true
  | _ => false

/-- The message carried by a PyError. -/
def PyError.msg : PyError → String
  | .requestException _ m => m
  | .requestsJSONDecodeError m => m
  | .jsonDecodeError m => m
  | .valueError m => m
  | .otherError m => m

/-- The outcome of the HTTP round trip before the except clauses: either some
stage raised (transport failure from session.get, HTTPError from
raise_for_status, a JSON decode error from response.json), or a decoded body. -/
inductive HttpOutcome where
  | raised (e : PyError)
  | body (v : JValue)

/-- Python `v == "success"` (a non-string JSON value never equals a string). -/
def isSuccessStatus : JValue → Bool
  | .str s => s == "success"
  | _ => false

/-- The try-block body of make_prometheus_request (server.py:346-366): raised
exceptions pass through; a decoded envelope must be a dict with a "status"
key; a non-success status raises the upstream ValueError carrying the
backend error string (dict.get with default, so an absent "error" reads
"Unknown error"); otherwise the "data" payload is returned. -/
def requestResult (outcome : HttpOutcome) : Except PyError JValue :=
  match outcome with
  | .raised e => .error e
  | .body v =>
    match v with
    | .obj fields =>
      match lookupLast fields "status" with
      | none => .error (.otherError "KeyError: status")
      | some st =>
        if !isSuccessStatus st then
          .error (.valueError ("Prometheus API error: " ++
            ((lookupLast fields "error").getD (.str "Unknown error")).pyStr))
        else
          match lookupLast fields "data" with
          | none => .error (.otherError "KeyError: data")
          | some d => .ok d
    | _ => .error (.otherError "TypeError: response is not an object")

/-- The except-clause dispatch of make_prometheus_request (server.py:368-376),
in source order: a RequestException is logged and re-raised unmodified; then
a json.JSONDecodeError is converted to the descriptive ValueError; any other
exception is re-raised unmodified. -/
def classifyError (e : PyError) : PyError :=
  if e.isRequestException then e
  else if e.isJSONDecodeError then
    .valueError ("Invalid JSON response from Prometheus: " ++ e.msg)
  else e

/-- The response handling of make_prometheus_request: the try-block result
with its raised exceptions pushed through the except clauses. -/
def requestOutcome (outcome : HttpOutcome) : Except PyError JValue :=
  match requestResult outcome with
  | .ok v => .ok v
  | .error e => .error (classifyError e)

/-- make_prometheus_request (server.py:314-376) over an initialized registry,
with the HTTP round trip abstracted by its outcome: tenant resolution (a
raised ResolveError is a ValueError), the missing-configuration guard, then
the classified response. Header and auth composition for the dispatched call
is `requestAuthAndHeaders`. -/
def make_prometheus_request_model (tenant : Option String) (tenants : Registry)
    (default_tenant : Option String) (cfg : PrometheusConfig)
    (outcome : HttpOutcome) : Except PyError JValue :=
  match _resolve_tenant tenant tenants default_tenant with
  | .error e => .error (.valueError e.msg)
  | .ok tc =>
    if tc.isNone && cfg.url == "" then
      .error (.valueError
        "Prometheus configuration is missing. Please set PROMETHEUS_URL or PROMETHEUS_TENANTS.")
    else
      requestOutcome outcome

/-- The cache TTL in seconds (server.py:32). -/
def _CACHE_TTL : ℚ := 300

/-- One cache slot: the cached data payload and the time.time() instant of
the successful fetch that wrote it (server.py:403). The default slot used for
a missing key is data None, timestamp 0 (server.py:393). -/
structure CacheEntry where
  data : JValue
  timestamp : ℚ

/-- The per-tenant metrics cache dict. -/
abbrev CacheMap := List (String × CacheEntry)

/-- Whether a cached data field is Python None. -/
def JValue.isNull : JValue → Bool
  | .null => true
  | _ => false

/-- The result of one get_cached_metrics read: the returned data, the cache
after the read, and whether the upstream dispatcher was called. -/
structure CacheReadResult where
  value : JValue
  cache : CacheMap
  fetched : Bool

/-- Model of _get_cache_key (server.py:378-382) on an initialized registry: the first
truthy of the selector, the default tenant and "default" when tenants are
enabled, else "default". -/
def _get_cache_key (tenant : Option String) (tenants : Registry)
    (default_tenant : Option String) : String :=
  if tenants.isEmpty then "default"
  else
    match pyOrStr tenant default_tenant with
    | some s => if s != "" then s else "default"
    | none => "default"

/-- get_cached_metrics (server.py:384-409) for one key, with the upstream
call abstracted by its would-be outcome `fetch`: a live entry (data not None,
age strictly under the TTL) is returned without an upstream call; otherwise
the dispatcher runs — on success the slot is overwritten with the fresh data
and the current time, on any exception the previously read slot data is
returned if not None (the cache untouched), else the empty list. -/
def get_cached_metrics (cache : CacheMap) (key : String) (now : ℚ)
    (fetch : Except PyError JValue) : CacheReadResult :=
  let entry := (dictGet cache key).getD { data := .null, timestamp := 0 }
  if !entry.data.isNull ∧ now - entry.timestamp < _CACHE_TTL then
    { value := entry.data, cache := cache, fetched := false }
  else
    match fetch with
    | .ok d => { value := d, cache := dictSet cache key { data := d, timestamp := now }, fetched := true }
    | .error _ =>
      { value := if !entry.data.isNull then entry.data else .arr []
        cache := cache
        fetched := true }

/-
Specification-side definitions, used to state the claims. Each follows the
words of a claim (or its amended form) and is compared against the source
definitions above by the theorems below.
-/

/-- Whether the custom_headers field of a tenant entry is acceptable to the
loader: absent, JSON null, or an object. -/
def customHeadersOk (fields : List (String × JValue)) : Bool :=
  match pyGet fields "custom_headers" with
  | none => true
  | some (.obj _) => true
  | some _ => false

/-- The names of the tenant entries, in declaration order: the name field
value of every object entry that has one (non-null). -/
def entryNames : List JValue → List JValue
  | [] => []
  | JValue.obj fs :: rest =>
    (match pyGet fs "name" with
     | some v => [v]
     | none => []) ++ entryNames rest
  | _ :: rest => entryNames rest

/-- Every object entry's name value is a hashable (scalar) JSON value. A
container name would make CPython raise TypeError at the dict-membership
test, outside the ConfigError taxonomy; the claims quantify over scalar
names. -/
def namesHashable : List JValue → Bool
  | [] => true
  | JValue.obj fs :: rest =>
    (match pyGet fs "name" with
     | some v => v.dictKey.isSome
     | none => true) && namesHashable rest
  | _ :: rest => namesHashable rest

/-- Hashability of the tenant names of a raw tenants value: trivially true
when no entry list is reached. -/
def rawNamesHashable : RawTenants → Bool
  | .value (.arr es) => namesHashable es
  | _ => true

/-- Validity of a tenant entry list relative to the set of names already
taken: every entry is an object with truthy name and url, a name not yet
used (Python dict-key equality), and an acceptable custom_headers field. -/
def entriesOk (used : List JValue) : List JValue → Bool
  | [] => true
  | JValue.obj fs :: rest =>
    pyTruthyOpt (pyGet fs "name") && pyTruthyOpt (pyGet fs "url") &&
    !(used.any (fun n => pyKeyEq n ((pyGet fs "name").getD .null))) &&
    customHeadersOk fs &&
    entriesOk (used ++ [(pyGet fs "name").getD .null]) rest
  | _ :: _ => false

/-- Whether a truthy default-tenant override misses the declared names. -/
def defaultMissing (entries : List JValue) (env : Option String) : Bool :=
  match env with
  | some d => d != "" && !((entryNames entries).any (fun n => pyKeyEq n (.str d)))
  | none => false

/-- The amended C7 failure condition: the raw text is set but undecodable, or
the top level is not an array, or some entry fails the per-entry checks
(non-object, falsy or missing name or url, duplicated name, custom_headers
present and neither null nor an object), or a truthy default override names
no tenant. -/
def tenantsLoadRejected (raw : RawTenants) (env : Option String) : Bool :=
  match raw with
  | .unset => false
  | .invalid _ => true
  | .value (.arr entries) => !entriesOk [] entries || defaultMissing entries env
  | .value _ => true

/-- Some object entry's name repeats the name of a prior entry (Python
dict-key equality), relative to names already taken. -/
def hasDupName (used : List JValue) : List JValue → Bool
  | [] => false
  | JValue.obj fs :: rest =>
    (match pyGet fs "name" with
     | some v => used.any (fun n => pyKeyEq n v) || hasDupName (used ++ [v]) rest
     | none => hasDupName used rest)
  | _ :: rest => hasDupName used rest

/-- The failure condition exactly as claim C7 states it: invalid JSON, a
non-array top level, a non-object element, an element lacking name or url, a
name duplicating a prior element, or a non-empty default override absent from
the tenant names — without the custom_headers condition the code also
enforces. -/
def c7ClaimedCondition (raw : RawTenants) (env : Option String) : Bool :=
  match raw with
  | .unset => false
  | .invalid _ => true
  | .value (.arr entries) =>
    entries.any (fun e => match e with | .obj _ => false | _ => true) ||
    entries.any (fun e => match e with
      | .obj fs => !(pyTruthyOpt (pyGet fs "name") && pyTruthyOpt (pyGet fs "url"))
      | _ => false) ||
    hasDupName [] entries ||
    defaultMissing entries env
  | .value _ => true

/-- The header value the bearer-auth artifact contributes for a key (the
claim's "auth header"): the last binding of the key in the artifact's header
dict, nothing for basic or no auth. -/
def authHeaderValue (tc : Option TenantConfig) (cfg : PrometheusConfig) (k : String) :
    Option JValue :=
  match requestAuth tc cfg with
  | .headerAuth hs => dictGetLast hs k
  | _ => none

/-- The header value the scope-id step contributes for a key. -/
def scopeHeaderValue (tc : Option TenantConfig) (cfg : PrometheusConfig) (k : String) :
    Option JValue :=
  let org_id := requestOrgId tc cfg
  if pyTruthyOpt org_id ∧ k = "X-Scope-OrgID" then some (org_id.getD .null) else none

/-- The header value the custom-header step contributes for a key: the last
binding of the key among the truthy custom headers. -/
def customHeaderValue (tc : Option TenantConfig) (cfg : PrometheusConfig) (k : String) :
    Option JValue :=
  match requestCustomHeaders tc cfg with
  | some ch => if !ch.isEmpty then dictGetLast ch k else none
  | none => none

/-
Concrete fixtures used by witnesses and counterexamples.
-/

/-- A global configuration with a full credential set, used to show tenant
credentials suppress the global fallback. -/
def cfgGlobal : PrometheusConfig :=
  { url := "http://prom:9090"
    username := some (.str "gu")
    password := some (.str "gp")
    token := some (.str "gt")
    org_id := some (.str "gorg")
    custom_headers := some [("X-Global", .str "g")] }

/-- A global configuration with a bearer token and a custom header that
collides with the Authorization header. -/
def cfgAuthCollision : PrometheusConfig :=
  { url := "http://prom:9090"
    token := some (.str "t")
    custom_headers := some [("Authorization", .str "custom-wins")] }

/-- A tenant with no credential fields set. -/
def tcNoCreds : TenantConfig :=
  { name := .str "plain", url := .str "https://plain", url_ssl_verify := true }

/-- A tenant with only a username set. -/
def tcOnlyUser : TenantConfig :=
  { name := .str "solo", url := .str "https://solo", url_ssl_verify := true
    username := some (.str "u") }

/-- The two tenants of the end-to-end example in the spec. -/
def tcProd : TenantConfig :=
  { name := .str "prod", url := .str "https://p", url_ssl_verify := true }

/-- The second tenant of the end-to-end example in the spec. -/
def tcStaging : TenantConfig :=
  { name := .str "staging", url := .str "https://s", url_ssl_verify := true
    username := some (.str "u"), password := some (.str "p") }

/-- The example registry with tenants prod and staging. -/
def reg0 : Registry := [(.str "prod", tcProd), (.str "staging", tcStaging)]

/-- The end-to-end example tenant array from the spec. -/
def entries0 : List JValue :=
  [ .obj [("name", .str "prod"), ("url", .str "https://p")],
    .obj [("name", .str "staging"), ("url", .str "https://s"),
          ("username", .str "u"), ("password", .str "p")] ]

/-- A tenant array whose only entry carries a non-object custom_headers
value; every condition claim C7 lists accepts it, yet the loader rejects it. -/
def entriesBadHeaders : List JValue :=
  [ .obj [("name", .str "a"), ("url", .str "u"), ("custom_headers", .num 5)] ]

/-
Helper lemmas about the dict model.
-/

theorem dictGet_dictSet {α : Type} (d : List (String × α)) (k k' : String) (v : α) :
    dictGet (dictSet d k v) k' = if k' = k then some v else dictGet d k' := by
  induction d with
  | nil =>
    simp only [dictSet, dictGet]
    by_cases h : k' = k
    · simp [h]
    · rw [if_neg h, if_neg (fun hh => h hh.symm)]
  | cons p rest ih =>
    simp only [dictSet]
    by_cases hp : p.1 = k
    · rw [if_pos hp]
      simp only [dictGet]
      by_cases h : k' = k
      · rw [if_pos h, if_pos (h.symm)]
      · rw [if_neg h, if_neg (fun hh => h hh.symm), if_neg (fun hh => h (hp ▸ hh).symm)]
    · rw [if_neg hp]
      simp only [dictGet]
      by_cases hpk : p.1 = k'
      · rw [if_pos hpk, if_neg (fun hh => hp (hpk.trans hh)), if_pos hpk]
      · rw [if_neg hpk, if_neg hpk, ih]

theorem dictGet_dictUpdate {α : Type} (ns : List (String × α)) (d : List (String × α))
    (k : String) :
    dictGet (dictUpdate d ns) k = (dictGetLast ns k).orElse (fun _ => dictGet d k) := by
  induction ns generalizing d with
  | nil =>
    simp only [dictUpdate, List.foldl_nil, dictGetLast, Option.orElse]
  | cons p ns ih =>
    simp only [dictUpdate, List.foldl_cons] at *
    rw [ih (dictSet d p.1 p.2), dictGet_dictSet]
    simp only [dictGetLast]
    cases hlast : dictGetLast ns k with
    | some x => simp [Option.orElse]
    | none =>
      simp only [Option.orElse]
      by_cases hp : p.1 = k
      · rw [if_pos hp, if_pos hp.symm]
      · rw [if_neg hp, if_neg (fun hh => hp hh.symm)]

theorem mem_infix_joinComma (s : String) (l : List String) (h : s ∈ l) :
    s.data <:+: (joinComma l).data := by
  induction l with
  | nil => cases h
  | cons a rest ih =>
    cases rest with
    | nil =>
      rcases List.mem_singleton.mp h with rfl
      exact List.infix_refl _
    | cons b rest' =>
      rcases List.mem_cons.mp h with rfl | hmem
      · show s.data <:+: (s ++ ", " ++ joinComma (b :: rest')).data
        rw [String.data_append, String.data_append]
        exact ((List.prefix_append s.data _).trans (List.prefix_append _ _)).isInfix
      · have hj : s.data <:+: (joinComma (b :: rest')).data := ih hmem
        show s.data <:+: (a ++ ", " ++ joinComma (b :: rest')).data
        rw [String.data_append]
        exact hj.trans (List.suffix_append _ _).isInfix

theorem any_map_keyEq (l : List (JValue × TenantConfig)) (v : JValue) :
    (l.map (fun p => p.1)).any (fun n => pyKeyEq n v) = l.any (fun p => pyKeyEq p.1 v) := by
  induction l with
  | nil => rfl
  | cons q qs ih => simp [ih]

theorem pyGet_isNull_false (fields : List (String × JValue)) (k : String) (v : JValue)
    (h : pyGet fields k = some v) : v.isNull = false := by
  unfold pyGet at h
  cases hl : lookupLast fields k with
  | none => rw [hl] at h; cases h
  | some w => cases w <;> rw [hl] at h <;> cases h <;> rfl

theorem loadEntries_ok (ssl : Bool) (hdrs : Option (List (String × JValue))) :
    ∀ (entries : List JValue) (idx : Nat) (acc : Registry),
      namesHashable entries = true →
      entriesOk (acc.map (fun p => p.1)) entries = true →
      ∃ reg, loadEntries ssl hdrs idx acc entries = .ok reg ∧
        reg.map (fun p => p.1) = acc.map (fun p => p.1) ++ entryNames entries ∧
        reg.length = acc.length + entries.length := by
  intro entries
  induction entries with
  | nil =>
    intro idx acc _ _
    exact ⟨acc, rfl, by simp [entryNames], by simp⟩
  | cons e rest ih =>
    intro idx acc hhash hok
    cases e with
    | obj fs =>
      obtain ⟨⟨⟨⟨h1, h2⟩, h3⟩, h4⟩, h5⟩ :=
        (by simpa only [entriesOk, Bool.and_eq_true] using hok :
          (((pyTruthyOpt (pyGet fs "name") = true ∧ pyTruthyOpt (pyGet fs "url") = true) ∧
            (!((acc.map (fun p => p.1)).any
              (fun n => pyKeyEq n ((pyGet fs "name").getD .null)))) = true) ∧
            customHeadersOk fs = true) ∧
          entriesOk ((acc.map (fun p => p.1)) ++ [(pyGet fs "name").getD .null]) rest = true)
      cases hv : pyGet fs "name" with
      | none => rw [hv] at h1; exact Bool.noConfusion h1
      | some v =>
        simp only [namesHashable, hv, Bool.and_eq_true] at hhash
        obtain ⟨hkeysome, hhrest⟩ := hhash
        obtain ⟨kk, hkk⟩ := Option.isSome_iff_exists.mp hkeysome
        rw [hv] at h3 h5
        simp only [Option.getD_some] at h3 h5
        have h3' : acc.any (fun p => pyKeyEq p.1 v) = false := by
          rw [Bool.not_eq_true'] at h3
          rw [← any_map_keyEq]
          exact h3
        have h5' : ∀ tcX : TenantConfig,
            entriesOk ((acc ++ [(v, tcX)]).map (fun p => p.1)) rest = true := by
          intro tcX
          simpa [List.map_append] using h5
        have hcond : (pyTruthyOpt (pyGet fs "name") && pyTruthyOpt (pyGet fs "url")) = true := by
          rw [h1, h2]
          rfl
        simp only [loadEntries]
        rw [hcond]
        rw [hv]
        simp only [Option.getD_some, hkk, Bool.not_true, Bool.false_eq_true, if_false, h3',
          ite_false]
        -- custom headers dispatch
        cases hch : pyGet fs "custom_headers" with
        | none =>
          obtain ⟨reg, hreg, hkeys, hlen⟩ := ih (idx + 1) (acc ++ [(v,
            mkTenant fs ssl hdrs v none)]) hhrest (h5' _)
          refine ⟨reg, hreg, ?_, ?_⟩
          · rw [hkeys]
            simp [entryNames, hv, List.append_assoc]
          · rw [hlen]
            simp [List.length_append]
            omega
        | some w =>
          cases w with
          | null =>
            have := pyGet_isNull_false fs "custom_headers" _ hch
            exact Bool.noConfusion this
          | obj hs =>
            obtain ⟨reg, hreg, hkeys, hlen⟩ := ih (idx + 1) (acc ++ [(v,
              mkTenant fs ssl hdrs v (some hs))]) hhrest (h5' _)
            refine ⟨reg, hreg, ?_, ?_⟩
            · rw [hkeys]
              simp [entryNames, hv, List.append_assoc]
            · rw [hlen]
              simp [List.length_append]
              omega
          | bool b => simp [customHeadersOk, hch] at h4
          | num n => simp [customHeadersOk, hch] at h4
          | str s => simp [customHeadersOk, hch] at h4
          | arr xs => simp [customHeadersOk, hch] at h4
    | null => exact Bool.noConfusion hok
    | bool b => exact Bool.noConfusion hok
    | num n => exact Bool.noConfusion hok
    | str s => exact Bool.noConfusion hok
    | arr xs => exact Bool.noConfusion hok

theorem loadEntries_err (ssl : Bool) (hdrs : Option (List (String × JValue))) :
    ∀ (entries : List JValue) (idx : Nat) (acc : Registry),
      namesHashable entries = true →
      entriesOk (acc.map (fun p => p.1)) entries = false →
      ∃ m, loadEntries ssl hdrs idx acc entries = .error (.configError m) := by
  intro entries
  induction entries with
  | nil =>
    intro idx acc _ hok
    exact Bool.noConfusion hok
  | cons e rest ih =>
    intro idx acc hhash hok
    cases e with
    | obj fs =>
      by_cases h12 : (pyTruthyOpt (pyGet fs "name") && pyTruthyOpt (pyGet fs "url")) = true
      · have h1 : pyTruthyOpt (pyGet fs "name") = true := (Bool.and_eq_true _ _ |>.mp h12).1
        cases hv : pyGet fs "name" with
        | none => rw [hv] at h1; exact Bool.noConfusion h1
        | some v =>
          simp only [namesHashable, hv, Bool.and_eq_true] at hhash
          obtain ⟨hkeysome, hhrest⟩ := hhash
          obtain ⟨kk, hkk⟩ := Option.isSome_iff_exists.mp hkeysome
          by_cases hdup : acc.any (fun p => pyKeyEq p.1 v) = true
          · simp only [loadEntries]
            rw [h12, hv]
            simp only [Option.getD_some, hkk, Bool.not_true, Bool.false_eq_true, if_false,
              hdup, if_true]
            exact ⟨_, rfl⟩
          · have hdup' : acc.any (fun p => pyKeyEq p.1 v) = false := by
              revert hdup
              cases acc.any (fun p => pyKeyEq p.1 v) <;> simp
            have hc : ((acc.map (fun p => p.1)).any fun n => pyKeyEq n v) = false := by
              rw [any_map_keyEq]
              exact hdup'
            by_cases hch4 : customHeadersOk fs = true
            · have h1' : pyTruthyOpt (some v) = true := by rw [← hv]; exact h1
              have hb : pyTruthyOpt (pyGet fs "url") = true := (Bool.and_eq_true _ _ |>.mp h12).2
              have h5 : entriesOk ((acc.map (fun p => p.1)) ++ [v]) rest = false := by
                simp only [entriesOk, hv, Option.getD_some, h1', hb, hc, hch4, Bool.not_false,
                  Bool.true_and, Bool.and_true] at hok
                exact hok
              cases hch : pyGet fs "custom_headers" with
              | none =>
                obtain ⟨m, hm⟩ := ih (idx + 1) (acc ++ [(v, mkTenant fs ssl hdrs v none)])
                  hhrest (by simpa [List.map_append] using h5)
                refine ⟨m, ?_⟩
                simp only [loadEntries]
                rw [h12, hv]
                simp only [Option.getD_some, hkk, Bool.not_true, Bool.false_eq_true, if_false,
                  hdup', ite_false, hch]
                exact hm
              | some w =>
                cases w with
                | null =>
                  have := pyGet_isNull_false fs "custom_headers" _ hch
                  exact Bool.noConfusion this
                | obj hs =>
                  obtain ⟨m, hm⟩ := ih (idx + 1)
                    (acc ++ [(v, mkTenant fs ssl hdrs v (some hs))])
                    hhrest (by simpa [List.map_append] using h5)
                  refine ⟨m, ?_⟩
                  simp only [loadEntries]
                  rw [h12, hv]
                  simp only [Option.getD_some, hkk, Bool.not_true, Bool.false_eq_true, if_false,
                    hdup', ite_false, hch]
                  exact hm
                | bool b => simp [customHeadersOk, hch] at hch4
                | num n => simp [customHeadersOk, hch] at hch4
                | str s => simp [customHeadersOk, hch] at hch4
                | arr xs => simp [customHeadersOk, hch] at hch4
            · cases hch : pyGet fs "custom_headers" with
              | none => exact absurd (by simp [customHeadersOk, hch]) hch4
              | some w =>
                cases w with
                | null =>
                  have := pyGet_isNull_false fs "custom_headers" _ hch
                  exact Bool.noConfusion this
                | obj hs => exact absurd (by simp [customHeadersOk, hch]) hch4
                | bool b =>
                  simp only [loadEntries]
                  rw [h12, hv]
                  simp only [Option.getD_some, hkk, Bool.not_true, Bool.false_eq_true, if_false,
                    hdup', ite_false, hch]
                  exact ⟨_, rfl⟩
                | num n =>
                  simp only [loadEntries]
                  rw [h12, hv]
                  simp only [Option.getD_some, hkk, Bool.not_true, Bool.false_eq_true, if_false,
                    hdup', ite_false, hch]
                  exact ⟨_, rfl⟩
                | str s =>
                  simp only [loadEntries]
                  rw [h12, hv]
                  simp only [Option.getD_some, hkk, Bool.not_true, Bool.false_eq_true, if_false,
                    hdup', ite_false, hch]
                  exact ⟨_, rfl⟩
                | arr xs =>
                  simp only [loadEntries]
                  rw [h12, hv]
                  simp only [Option.getD_some, hkk, Bool.not_true, Bool.false_eq_true, if_false,
                    hdup', ite_false, hch]
                  exact ⟨_, rfl⟩
      · have h12' : (pyTruthyOpt (pyGet fs "name") && pyTruthyOpt (pyGet fs "url")) = false := by
          revert h12
          cases (pyTruthyOpt (pyGet fs "name") && pyTruthyOpt (pyGet fs "url")) <;> simp
        simp only [loadEntries]
        rw [h12']
        exact ⟨_, rfl⟩
    | null => exact ⟨_, rfl⟩
    | bool b => exact ⟨_, rfl⟩
    | num n => exact ⟨_, rfl⟩
    | str s => exact ⟨_, rfl⟩
    | arr xs => exact ⟨_, rfl⟩

/-
Claim theorems.
-/

/-- C9: when no tenants are registered, _resolve_tenant returns the global
backend (None) for every selector value, including a non-empty name matching
no tenant, without raising. -/
theorem c9_resolve_empty_registry (tenant default_tenant : Option String) :
    _resolve_tenant tenant [] default_tenant = .ok none := rfl

/-- C9 witness: a concrete non-empty selector against an empty registry. -/
theorem c9_resolve_empty_registry_witness :
    _resolve_tenant (some "ghost") [] (some "also-ignored") = .ok none :=
  c9_resolve_empty_registry (some "ghost") (some "also-ignored")

/-- C2 counterexample: the JSON decode error response.json() raises,
requests.exceptions.JSONDecodeError, is also a RequestException, so the
dispatcher re-raises it unmodified instead of converting it to the
descriptive ValueError the claim promises for every undecodable body. -/
theorem c2_decode_error_cex :
    requestOutcome (.raised (.requestsJSONDecodeError "Expecting value")) =
      .error (.requestsJSONDecodeError "Expecting value") ∧
    PyError.isJSONDecodeError (.requestsJSONDecodeError "Expecting value") = true ∧
    PyError.requestsJSONDecodeError "Expecting value" ≠
      PyError.valueError ("Invalid JSON response from Prometheus: " ++ "Expecting value") :=
  ⟨rfl, rfl, fun h => PyError.noConfusion h⟩

/-- C2 (amended): transport and HTTP errors propagate unmodified; a
requests-level JSONDecodeError (what response.json raises, a
RequestException subclass) also propagates unmodified because the
RequestException clause runs first; only a plain json.JSONDecodeError is
converted into the descriptive ValueError. -/
theorem c2_error_classification :
    (∀ cls m, requestOutcome (.raised (.requestException cls m)) =
       .error (.requestException cls m)) ∧
    (∀ m, requestOutcome (.raised (.requestsJSONDecodeError m)) =
       .error (.requestsJSONDecodeError m)) ∧
    (∀ m, requestOutcome (.raised (.jsonDecodeError m)) =
       .error (.valueError ("Invalid JSON response from Prometheus: " ++ m))) :=
  ⟨fun _ _ => rfl, fun _ => rfl, fun _ => rfl⟩

/-- C2 witness: concrete instances of the three classification paths. -/
theorem c2_error_classification_witness :
    requestOutcome (.raised (.requestException "ConnectionError" "refused")) =
      .error (.requestException "ConnectionError" "refused") ∧
    requestOutcome (.raised (.jsonDecodeError "Expecting value")) =
      .error (.valueError ("Invalid JSON response from Prometheus: " ++ "Expecting value")) :=
  ⟨c2_error_classification.1 "ConnectionError" "refused",
   c2_error_classification.2.2 "Expecting value"⟩

/-- C5: get_prometheus_auth with explicitly supplied credentials follows the
strict total precedence: a non-empty token yields the bearer header artifact
regardless of username and password; else a non-empty username and password
pair yields basic auth; else no auth. -/
theorem c5_auth_precedence (username password token : Option JValue)
    (cfg : PrometheusConfig) :
    (∀ s, token = some (.str s) → s ≠ "" →
       get_prometheus_auth username password token cfg =
         .headerAuth [("Authorization", .str ("Bearer " ++ s))]) ∧
    ((token = none ∨ token = some (.str "")) →
       ∀ us ps, username = some (.str us) → password = some (.str ps) →
         us ≠ "" → ps ≠ "" →
         get_prometheus_auth username password token cfg = .basicAuth (.str us) (.str ps)) ∧
    ((username.isNone && password.isNone && token.isNone) = false →
       pyTruthyOpt token = false →
       (pyTruthyOpt username && pyTruthyOpt password) = false →
       get_prometheus_auth username password token cfg = .noAuth) := by
  refine ⟨?_, ?_, ?_⟩
  · intro s htok hs
    subst htok
    simp [get_prometheus_auth, composeAuth, pyTruthyOpt, JValue.truthy, JValue.pyStr, hs]
  · rintro (htok | htok) us ps hu hp hus hps <;> subst htok <;> subst hu <;> subst hp <;>
      simp [get_prometheus_auth, composeAuth, pyTruthyOpt, JValue.truthy, hus, hps]
  · intro h1 h2 h3
    simp [get_prometheus_auth, composeAuth, h1, h2, h3]

/-- C5 witness: with a full credential set plus a configured global config,
the bearer artifact wins; dropping the token yields basic auth; an
incomplete pair yields no auth. -/
theorem c5_auth_precedence_witness :
    get_prometheus_auth (some (.str "user")) (some (.str "pass")) (some (.str "tok"))
      cfgGlobal = .headerAuth [("Authorization", .str "Bearer tok")] ∧
    get_prometheus_auth (some (.str "user")) (some (.str "pass")) none cfgGlobal =
      .basicAuth (.str "user") (.str "pass") ∧
    get_prometheus_auth (some (.str "user")) none none cfgGlobal = .noAuth :=
  ⟨(c5_auth_precedence _ _ _ cfgGlobal).1 "tok" rfl (by decide),
   (c5_auth_precedence _ _ _ cfgGlobal).2.1 (Or.inl rfl) "user" "pass" rfl rfl
     (by decide) (by decide),
   (c5_auth_precedence _ _ _ cfgGlobal).2.2 (by decide) (by decide) (by decide)⟩

/-- C10: the global-credential fallback fires exactly when all three
arguments are None; a tenant with all credential fields unset composes auth
from the global credentials, while a tenant with only a username set gets no
fallback and no auth. -/
theorem c10_global_fallback :
    (∀ (u p t : Option JValue) (cfg : PrometheusConfig),
       (u.isNone && p.isNone && t.isNone) = false →
       get_prometheus_auth u p t cfg = composeAuth u p t) ∧
    (∀ cfg : PrometheusConfig,
       get_prometheus_auth none none none cfg =
         composeAuth cfg.username cfg.password cfg.token) ∧
    (∀ (tc : TenantConfig) (cfg : PrometheusConfig),
       tc.username = none → tc.password = none → tc.token = none →
       requestAuth (some tc) cfg = composeAuth cfg.username cfg.password cfg.token) ∧
    (∀ (tc : TenantConfig) (cfg : PrometheusConfig) (us : JValue),
       tc.username = some us → tc.password = none → tc.token = none →
       requestAuth (some tc) cfg = .noAuth) := by
  refine ⟨?_, ?_, ?_, ?_⟩
  · intro u p t cfg h
    simp [get_prometheus_auth, h]
  · intro cfg
    rfl
  · intro tc cfg hu hp ht
    simp [requestAuth, hu, hp, ht, get_prometheus_auth]
  · intro tc cfg us hu hp ht
    simp [requestAuth, hu, hp, ht, get_prometheus_auth, composeAuth, pyTruthyOpt]

/-- C10 witness: a credential-free tenant falls back to the global
credentials (here a bearer token), a username-only tenant gets no auth. -/
theorem c10_global_fallback_witness :
    requestAuth (some tcNoCreds) cfgGlobal =
      composeAuth cfgGlobal.username cfgGlobal.password cfgGlobal.token ∧
    requestAuth (some tcOnlyUser) cfgGlobal = .noAuth :=
  ⟨c10_global_fallback.2.2.1 tcNoCreds cfgGlobal rfl rfl rfl,
   c10_global_fallback.2.2.2 tcOnlyUser cfgGlobal (.str "u") rfl rfl rfl⟩

/-- C3: starting from a key with no entry, a first read with a successful
fetch issues the one upstream request and stores the data with its
timestamp; a second read strictly within the 300s TTL returns the cached
data without calling the dispatcher and leaves the cache unchanged; a read
at or after TTL expiry issues one more request and overwrites the entry with
the fresh data and the new timestamp. -/
theorem c3_cache_ttl (cache : CacheMap) (key : String) (t0 t1 t2 : ℚ)
    (d d2 : JValue) (f : Except PyError JValue)
    (h0 : dictGet cache key = none) (hd : d.isNull = false)
    (h01 : t1 - t0 < _CACHE_TTL) (h02 : _CACHE_TTL ≤ t2 - t0) :
    (get_cached_metrics cache key t0 (.ok d)).fetched = true ∧
    (get_cached_metrics cache key t0 (.ok d)).value = d ∧
    (get_cached_metrics cache key t0 (.ok d)).cache =
      dictSet cache key { data := d, timestamp := t0 } ∧
    (get_cached_metrics (dictSet cache key { data := d, timestamp := t0 }) key t1 f).fetched
      = false ∧
    (get_cached_metrics (dictSet cache key { data := d, timestamp := t0 }) key t1 f).value
      = d ∧
    (get_cached_metrics (dictSet cache key { data := d, timestamp := t0 }) key t1 f).cache
      = dictSet cache key { data := d, timestamp := t0 } ∧
    (get_cached_metrics (dictSet cache key { data := d, timestamp := t0 }) key t2
      (.ok d2)).fetched = true ∧
    (get_cached_metrics (dictSet cache key { data := d, timestamp := t0 }) key t2
      (.ok d2)).value = d2 ∧
    dictGet (get_cached_metrics (dictSet cache key { data := d, timestamp := t0 }) key t2
      (.ok d2)).cache key = some { data := d2, timestamp := t2 } := by
  have hread1 : get_cached_metrics cache key t0 (.ok d) =
      { value := d, cache := dictSet cache key { data := d, timestamp := t0 },
        fetched := true } := by
    unfold get_cached_metrics
    rw [h0]
    simp [JValue.isNull]
  have hentry : dictGet (dictSet cache key { data := d, timestamp := t0 }) key =
      some { data := d, timestamp := t0 } := by
    rw [dictGet_dictSet, if_pos rfl]
  have hread2 : get_cached_metrics (dictSet cache key { data := d, timestamp := t0 })
      key t1 f =
      { value := d, cache := dictSet cache key { data := d, timestamp := t0 },
        fetched := false } := by
    unfold get_cached_metrics
    rw [hentry]
    simp only [Option.getD_some]
    rw [if_pos ⟨by simp [hd], h01⟩]
  have hread3 : get_cached_metrics (dictSet cache key { data := d, timestamp := t0 })
      key t2 (.ok d2) =
      { value := d2,
        cache := dictSet (dictSet cache key { data := d, timestamp := t0 }) key
          { data := d2, timestamp := t2 },
        fetched := true } := by
    unfold get_cached_metrics
    rw [hentry]
    simp only [Option.getD_some]
    rw [if_neg (fun hc => absurd hc.2 (not_lt.mpr h02))]
  refine ⟨by rw [hread1], by rw [hread1], by rw [hread1], by rw [hread2], by rw [hread2],
    by rw [hread2], by rw [hread3], by rw [hread3], ?_⟩
  rw [hread3]
  exact (dictGet_dictSet _ _ _ _).trans (if_pos rfl)

/-- C3 witness: one cold read at t=0, a cached read at t=299 under a failing
fetch, and a refreshing read at exactly t=300. -/
theorem c3_cache_ttl_witness :
    (get_cached_metrics [] "default" 0 (.ok (.arr [.str "up"]))).fetched = true ∧
    (get_cached_metrics (dictSet [] "default" { data := .arr [.str "up"], timestamp := 0 })
      "default" 299 (.error (.otherError "boom"))).fetched = false ∧
    (get_cached_metrics (dictSet [] "default" { data := .arr [.str "up"], timestamp := 0 })
      "default" 300 (.ok (.arr []))).fetched = true := by
  have h := c3_cache_ttl [] "default" 0 299 300 (.arr [.str "up"]) (.arr [])
    (.error (.otherError "boom")) rfl rfl (by norm_num [_CACHE_TTL]) (by norm_num [_CACHE_TTL])
  exact ⟨h.1, h.2.2.2.1, h.2.2.2.2.2.2.1⟩

/-- C4: when the upstream refresh fails, an existing entry — even one past
the TTL — has its data returned unchanged with the cache unmodified, and
with no prior entry the empty list is returned instead of an error. -/
theorem c4_cache_stale_fallback (cache : CacheMap) (key : String) (now : ℚ)
    (e : CacheEntry) (err : PyError)
    (he : dictGet cache key = some e) (hd : e.data.isNull = false)
    (hstale : _CACHE_TTL ≤ now - e.timestamp) :
    ((get_cached_metrics cache key now (.error err)).value = e.data ∧
     (get_cached_metrics cache key now (.error err)).cache = cache ∧
     (get_cached_metrics cache key now (.error err)).fetched = true) ∧
    (∀ (cache2 : CacheMap) (key2 : String) (now2 : ℚ) (err2 : PyError),
       dictGet cache2 key2 = none →
       (get_cached_metrics cache2 key2 now2 (.error err2)).value = .arr [] ∧
       (get_cached_metrics cache2 key2 now2 (.error err2)).cache = cache2) := by
  constructor
  · have hread : get_cached_metrics cache key now (.error err) =
        { value := e.data, cache := cache, fetched := true } := by
      unfold get_cached_metrics
      rw [he]
      simp only [Option.getD_some]
      rw [if_neg (fun hc => absurd hc.2 (not_lt.mpr hstale))]
      simp [hd]
    exact ⟨by rw [hread], by rw [hread], by rw [hread]⟩
  · intro cache2 key2 now2 err2 h2
    have hread : get_cached_metrics cache2 key2 now2 (.error err2) =
        { value := .arr [], cache := cache2, fetched := true } := by
      unfold get_cached_metrics
      rw [h2]
      simp [JValue.isNull]
    exact ⟨by rw [hread], by rw [hread]⟩

/-- C4 witness: a stale entry (age 301) survives a failing refresh
unchanged, and a failing fetch against an empty cache returns the empty
list. -/
theorem c4_cache_stale_fallback_witness :
    (get_cached_metrics [("default", { data := .arr [.str "up"], timestamp := 0 })]
      "default" 301 (.error (.otherError "down"))).value = .arr [.str "up"] ∧
    (get_cached_metrics [("default", { data := .arr [.str "up"], timestamp := 0 })]
      "default" 301 (.error (.otherError "down"))).cache =
      [("default", { data := .arr [.str "up"], timestamp := 0 })] ∧
    (get_cached_metrics [] "other" 5 (.error (.otherError "down"))).value = .arr [] := by
  have h := c4_cache_stale_fallback
    [("default", { data := .arr [.str "up"], timestamp := 0 })] "default" 301
    { data := .arr [.str "up"], timestamp := 0 } (.otherError "down")
    (by rw [dictGet, if_pos rfl]) rfl (by norm_num [_CACHE_TTL])
  exact ⟨h.1.1, h.1.2.1, (h.2 [] "other" 5 (.otherError "down") rfl).1⟩

theorem dictGet_headersAfterAuth (tc : Option TenantConfig) (cfg : PrometheusConfig)
    (k : String) :
    dictGet (headersAfterAuth tc cfg) k = authHeaderValue tc cfg k := by
  simp only [headersAfterAuth, authHeaderValue]
  cases requestAuth tc cfg with
  | headerAuth hs =>
    rw [dictGet_dictUpdate]
    cases h : dictGetLast hs k <;> simp [Option.orElse, dictGet, h]
  | basicAuth u p => simp [dictGet]
  | noAuth => simp [dictGet]

theorem dictGet_headersAfterScope (tc : Option TenantConfig) (cfg : PrometheusConfig)
    (k : String) :
    dictGet (headersAfterScope tc cfg) k =
      (scopeHeaderValue tc cfg k).orElse (fun _ => authHeaderValue tc cfg k) := by
  simp only [headersAfterScope, scopeHeaderValue]
  by_cases horg : pyTruthyOpt (requestOrgId tc cfg) = true
  · rw [if_pos horg, dictGet_dictSet]
    by_cases hk : k = "X-Scope-OrgID"
    · rw [if_pos hk, if_pos ⟨horg, hk⟩]
      simp [Option.orElse]
    · rw [if_neg hk, if_neg (fun hc => hk hc.2)]
      simp [Option.orElse, dictGet_headersAfterAuth]
  · rw [if_neg horg, if_neg (fun hc => horg hc.1)]
    simp [Option.orElse, dictGet_headersAfterAuth]

theorem dictGet_headersAfterCustom (tc : Option TenantConfig) (cfg : PrometheusConfig)
    (k : String) :
    dictGet (headersAfterCustom tc cfg) k =
      (customHeaderValue tc cfg k).orElse (fun _ =>
        (scopeHeaderValue tc cfg k).orElse (fun _ => authHeaderValue tc cfg k)) := by
  simp only [headersAfterCustom, customHeaderValue]
  cases hch : requestCustomHeaders tc cfg with
  | none => simp [Option.orElse, dictGet_headersAfterScope]
  | some ch =>
    by_cases hempty : ch.isEmpty = true
    · simp [hempty, Option.orElse, dictGet_headersAfterScope]
    · rw [Bool.not_eq_true] at hempty
      simp only [hempty, Bool.not_false, if_true]
      rw [dictGet_dictUpdate, dictGet_headersAfterScope]

/-- C1 counterexample: with bearer-token auth selected and a custom header
named Authorization, the final header value is the custom one: the code
merges the auth header first and the custom headers last, so a custom header
of the same name overwrites the bearer Authorization header, contradicting
the claimed order in which auth is applied last and always wins. -/
theorem c1_header_precedence_cex :
    requestAuth none cfgAuthCollision = .headerAuth [("Authorization", .str "Bearer t")] ∧
    dictGet (requestAuthAndHeaders none cfgAuthCollision).2 "Authorization" =
      some (.str "custom-wins") ∧
    some (JValue.str "custom-wins") ≠ some (JValue.str "Bearer t") :=
  ⟨rfl, rfl, fun h => absurd (JValue.str.inj (Option.some.inj h)) (by decide)⟩

/-- C1 (amended): make_prometheus_request merges headers in the fixed order
auth header, then scope-id header, then tenant or global custom headers,
later wins on key collision: the effective value of every header key is the
custom-header value when one is supplied for that key, else the scope-id
value when applicable, else the auth-header value. -/
theorem c1_header_precedence (tc : Option TenantConfig) (cfg : PrometheusConfig)
    (k : String) :
    dictGet (requestAuthAndHeaders tc cfg).2 k =
      (customHeaderValue tc cfg k).orElse (fun _ =>
        (scopeHeaderValue tc cfg k).orElse (fun _ => authHeaderValue tc cfg k)) :=
  dictGet_headersAfterCustom tc cfg k

/-- C1 witness: a concrete instance of the precedence equation. -/
theorem c1_header_precedence_witness :
    dictGet (requestAuthAndHeaders none cfgAuthCollision).2 "Authorization" =
      (customHeaderValue none cfgAuthCollision "Authorization").orElse (fun _ =>
        (scopeHeaderValue none cfgAuthCollision "Authorization").orElse (fun _ =>
          authHeaderValue none cfgAuthCollision "Authorization")) :=
  c1_header_precedence none cfgAuthCollision "Authorization"

/-- C8: with tenants registered, a truthy supplied-or-defaulted selector
absent from the registry makes _resolve_tenant fail with an unknown-tenant
error whose message contains every registered tenant name. -/
theorem c8_unknown_tenant (tenants : Registry) (default_tenant tenant : Option String)
    (s : String)
    (hne : tenants.isEmpty = false)
    (hsel : pyOrStr tenant default_tenant = some s) (hs : s ≠ "")
    (habs : tenants.find? (fun p => pyKeyEq p.1 (.str s)) = none) :
    ∃ m, _resolve_tenant tenant tenants default_tenant = .error (.unknownTenant m) ∧
      ∀ p ∈ tenants, ∀ nm, p.1 = JValue.str nm → nm.data <:+: m.data := by
  have hpt : pyTruthyStr (some s) = true := by simp [pyTruthyStr, hs]
  refine ⟨"Unknown tenant " ++ sq ++ s ++ sq ++ ". Available tenants: " ++
    joinComma (tenants.map (fun p => p.1.pyStr)), ?_, ?_⟩
  · simp only [_resolve_tenant]
    rw [hne, hsel]
    simp only [hpt, Bool.not_true, if_false, Bool.false_eq_true, Option.getD_some]
    rw [habs]
  · intro p hp nm hnm
    have hmem : nm ∈ tenants.map (fun p => p.1.pyStr) := by
      refine List.mem_map.mpr ⟨p, hp, ?_⟩
      rw [hnm]
      rfl
    have hinf := mem_infix_joinComma nm _ hmem
    show nm.data <:+:
      (("Unknown tenant " ++ sq ++ s ++ sq ++ ". Available tenants: ") ++
        joinComma (tenants.map (fun p => p.1.pyStr))).data
    rw [String.data_append]
    exact hinf.trans (List.suffix_append _ _).isInfix

/-- C8 witness: resolving "ghost" against the prod/staging registry fails
with a message containing both names. -/
theorem c8_unknown_tenant_witness :
    ∃ m, _resolve_tenant (some "ghost") reg0 none = .error (.unknownTenant m) ∧
      ("prod".data <:+: m.data) ∧ ("staging".data <:+: m.data) := by
  obtain ⟨m, hm, hall⟩ := c8_unknown_tenant reg0 none (some "ghost") "ghost"
    rfl rfl (by decide) rfl
  exact ⟨m, hm,
    hall (.str "prod", tcProd) (List.mem_cons_self _ _) "prod" rfl,
    hall (.str "staging", tcStaging)
      (List.mem_cons_of_mem _ (List.mem_cons_self _ _)) "staging" rfl⟩

/-- C6: for a valid tenant array of uniquely named entries with truthy name
and url (N at least 1), initialization stores a registry of exactly N tenants
in declaration order; the default tenant is the explicit override when it
names an entry, else the first declared tenant; with no tenants configured at
all the registry is empty and the default tenant is None. -/
theorem c6_registry_init (entries : List JValue) (env : Option String) (ssl : Bool)
    (hdrs : Option (List (String × JValue)))
    (hhash : namesHashable entries = true)
    (hok : entriesOk [] entries = true)
    (hne : entries ≠ []) :
    (∀ d, env = some d → d ≠ "" →
       (entryNames entries).any (fun n => pyKeyEq n (.str d)) = true →
       ∃ reg, init_tenants (.value (.arr entries)) env ssl hdrs
           { tenants := none, default_tenant := none } =
         ({ tenants := some reg, default_tenant := some d }, none) ∧
         reg.map (fun p => p.1) = entryNames entries ∧
         reg.length = entries.length) ∧
    ((env = none ∨ env = some "") →
       ∃ reg, init_tenants (.value (.arr entries)) env ssl hdrs
           { tenants := none, default_tenant := none } =
         ({ tenants := some reg,
            default_tenant := (entryNames entries).head?.map JValue.pyStr }, none) ∧
         reg.map (fun p => p.1) = entryNames entries ∧
         reg.length = entries.length) ∧
    init_tenants .unset env ssl hdrs { tenants := none, default_tenant := none } =
      ({ tenants := some [], default_tenant := none }, none) := by
  obtain ⟨reg, hreg, hkeys, hlen⟩ :=
    loadEntries_ok ssl hdrs entries 0 [] hhash (by simpa using hok)
  have hkeys' : reg.map (fun p => p.1) = entryNames entries := by simpa using hkeys
  have hlen' : reg.length = entries.length := by simpa using hlen
  have hdef : (reg.head?.map (fun p => p.1.pyStr)) =
      (entryNames entries).head?.map JValue.pyStr := by
    rw [← hkeys', List.head?_map, Option.map_map]
    rfl
  refine ⟨?_, ?_, rfl⟩
  · intro d henv hd hany
    subst henv
    refine ⟨reg, ?_, hkeys', hlen'⟩
    have hd' : (d != "") = true := by simpa using hd
    have hany' : reg.any (fun p => pyKeyEq p.1 (.str d)) = true := by
      rw [← any_map_keyEq, hkeys']
      exact hany
    simp only [init_tenants, _load_tenants, hreg, hd', if_true, hany']
  · intro henv
    refine ⟨reg, ?_, hkeys', hlen'⟩
    rcases henv with rfl | rfl
    · simp only [init_tenants, _load_tenants, hreg]
      rw [hdef]
    · simp only [init_tenants, _load_tenants, hreg,
        show (("" : String) != "") = false from rfl, Bool.false_eq_true, if_false]
      rw [hdef]

/-- C6 witness: the end-to-end example array initializes to a two-tenant
registry in declaration order with default tenant prod. -/
theorem c6_registry_init_witness :
    ∃ reg, init_tenants (.value (.arr entries0)) none true none
        { tenants := none, default_tenant := none } =
      ({ tenants := some reg,
         default_tenant := (entryNames entries0).head?.map JValue.pyStr }, none) ∧
      reg.map (fun p => p.1) = [.str "prod", .str "staging"] ∧
      reg.length = 2 := by
  obtain ⟨reg, hinit, hkeys, hlen⟩ :=
    (c6_registry_init entries0 none true none (by decide) (by decide)
      (List.cons_ne_nil _ _)).2.1 (Or.inl rfl)
  refine ⟨reg, hinit, ?_, ?_⟩
  · rw [hkeys]
    rfl
  · rw [hlen]
    rfl

/-- C7 counterexample: a single tenant entry that is a well-formed object
with truthy string name and url, no duplicate, no default override — but a
numeric custom_headers value. None of the failure conditions the claim lists
holds, yet initialization fails with the ConfigError of the custom_headers
check the claim omits. -/
theorem c7_custom_headers_cex :
    c7ClaimedCondition (.value (.arr entriesBadHeaders)) none = false ∧
    (init_tenants (.value (.arr entriesBadHeaders)) none true none
      { tenants := none, default_tenant := none }).2 =
      some (.configError ("PROMETHEUS_TENANTS[" ++ toString 0 ++
        "].custom_headers must be an object")) := by
  constructor
  · decide
  · rfl

/-- C7 (amended): for tenant arrays whose name values are hashable JSON
scalars, initialization fails with a ConfigError exactly when the raw text is
set but not valid JSON, the top level is not an array, some element is not an
object, some element has a falsy or missing name or url, some element's name
duplicates a prior element (Python dict-key equality), some element's
custom_headers is present and neither null nor an object, or a non-empty
default override names no tenant; and whenever initialization fails the
previously stored registry state is left unmutated. -/
theorem c7_config_error_iff (raw : RawTenants) (env : Option String) (ssl : Bool)
    (hdrs : Option (List (String × JValue))) (st : TenantState)
    (hst : st.tenants = none)
    (hhash : rawNamesHashable raw = true) :
    ((∃ m, (init_tenants raw env ssl hdrs st).2 = some (.configError m)) ↔
       tenantsLoadRejected raw env = true) ∧
    (∀ e, (init_tenants raw env ssl hdrs st).2 = some e →
       (init_tenants raw env ssl hdrs st).1 = st) := by
  constructor
  · cases raw with
    | unset => simp [init_tenants, hst, _load_tenants, tenantsLoadRejected]
    | invalid msg =>
      simp only [init_tenants, hst, _load_tenants, tenantsLoadRejected]
      exact iff_of_true ⟨_, rfl⟩ trivial
    | value v =>
      cases v with
      | arr entries =>
        have hhash' : namesHashable entries = true := hhash
        by_cases hok : entriesOk [] entries = true
        · obtain ⟨reg, hreg, hkeys, hlen⟩ :=
            loadEntries_ok ssl hdrs entries 0 [] hhash' (by simpa using hok)
          have hkeys' : reg.map (fun p => p.1) = entryNames entries := by simpa using hkeys
          cases env with
          | none =>
            simp [init_tenants, hst, _load_tenants, hreg, tenantsLoadRejected,
              defaultMissing, hok]
          | some d =>
            by_cases hd : (d != "") = true
            · by_cases hmem : (entryNames entries).any (fun n => pyKeyEq n (.str d)) = true
              · have hany' : reg.any (fun p => pyKeyEq p.1 (.str d)) = true := by
                  rw [← any_map_keyEq, hkeys']
                  exact hmem
                simp [init_tenants, hst, _load_tenants, hreg, hd, hany',
                  tenantsLoadRejected, defaultMissing, hok, hmem]
              · have hmem' : (entryNames entries).any (fun n => pyKeyEq n (.str d)) = false := by
                  revert hmem
                  cases ((entryNames entries).any fun n => pyKeyEq n (.str d)) <;> simp
                have hany' : reg.any (fun p => pyKeyEq p.1 (.str d)) = false := by
                  rw [← any_map_keyEq, hkeys']
                  exact hmem'
                simp [init_tenants, hst, _load_tenants, hreg, hd, hany',
                  tenantsLoadRejected, defaultMissing, hok, hmem']
            · have hd' : (d != "") = false := by
                revert hd
                cases (d != "") <;> simp
              simp [init_tenants, hst, _load_tenants, hreg, hd', tenantsLoadRejected,
                defaultMissing, hok]
        · have hok' : entriesOk [] entries = false := by
            revert hok
            cases (entriesOk [] entries) <;> simp
          obtain ⟨m, hm⟩ :=
            loadEntries_err ssl hdrs entries 0 [] hhash' (by simpa using hok')
          simp [init_tenants, hst, _load_tenants, hm, tenantsLoadRejected, hok']
      | null => simp [init_tenants, hst, _load_tenants, tenantsLoadRejected]
      | bool b => simp [init_tenants, hst, _load_tenants, tenantsLoadRejected]
      | num n => simp [init_tenants, hst, _load_tenants, tenantsLoadRejected]
      | str s => simp [init_tenants, hst, _load_tenants, tenantsLoadRejected]
      | obj fs => simp [init_tenants, hst, _load_tenants, tenantsLoadRejected]
  · intro e he
    simp only [init_tenants, hst] at he ⊢
    cases hload : _load_tenants raw env ssl hdrs with
    | error e2 => simp [hload]
    | ok td =>
      rw [hload] at he
      obtain ⟨t, d⟩ := td
      simp at he

/-- C7 witness: the amended failure characterization applied to the
custom_headers counterexample input. -/
theorem c7_config_error_iff_witness :
    ∃ m, (init_tenants (.value (.arr entriesBadHeaders)) none true none
      { tenants := none, default_tenant := none }).2 = some (.configError m) := by
  have h := c7_config_error_iff (.value (.arr entriesBadHeaders)) none true none
    { tenants := none, default_tenant := none } rfl (by decide)
  exact h.1.mpr (by decide)

end PromMCP
